import Mathlib

/-!
Shallow embedding of the Vulkan bootstrap sequence of
`wyatt-raex/vulkan-triangle` (src/main.cpp), the `HelloTriangleApplication`
class: instance creation and layer/extension negotiation, debug-messenger
setup, surface creation, physical-device selection, logical-device creation
and queue retrieval, plus the cleanup sequence.

The driver/windowing environment (what the Vulkan loader and GLFW report
and whether each creation call succeeds) is a `World` record; the two
compile-time booleans of main.cpp (lines 27-34) are a `Config` record.
Each stage is a pure function from `Config`/`World` to a trace of observable
driver calls (`Event`) plus an `Except String` result, mirroring the C++
exception-based control flow (`throw std::runtime_error(msg)` becomes
`.error msg`).
-/

/-- main.cpp lines 23-25: the requested validation layer names. -/
def validationLayers : List String := ["VK_LAYER_KHRONOS_validation"]

/-- `VK_EXT_DEBUG_UTILS_EXTENSION_NAME` (pushed in getRequiredExtensions, line 203). -/
def VK_EXT_DEBUG_UTILS_EXTENSION_NAME : String := "VK_EXT_debug_utils"

/-- `VK_QUEUE_GRAPHICS_BIT` = 0x00000001. -/
def VK_QUEUE_GRAPHICS_BIT : Nat := 1

/-- main.cpp lines 27-34: the two compile-time flags, modelled as startup
configuration (in the source both are `true` unless NDEBUG is defined). -/
structure Config where
  enableValidationLayers : Bool
  log_extensions : Bool
deriving DecidableEq, Repr

/-- One entry of `VkLayerProperties` as the code reads it (layerName only). -/
structure LayerProperties where
  layerName : String
deriving DecidableEq, Repr

/-- One entry of `VkExtensionProperties` as the code reads it. -/
structure ExtensionProperties where
  extensionName : String
deriving DecidableEq, Repr

/-- One entry of `VkQueueFamilyProperties` as the code reads it: the
`queueFlags` bit set. -/
structure QueueFamilyProperties where
  queueFlags : Nat
deriving DecidableEq, Repr

/-- A `VkPhysicalDevice` as the code observes it: the queue-family
property vector returned by `vkGetPhysicalDeviceQueueFamilyProperties`. -/
structure PhysicalDevice where
  queueFamilies : List QueueFamilyProperties
deriving DecidableEq, Repr

/-- The driver and windowing environment a run executes against: what the
enumeration entry points report, whether each fallible creation call
succeeds, and whether the dynamically resolved debug-utils entry points
exist (`vkGetInstanceProcAddr` returning non-null). -/
structure World where
  availableLayers : List LayerProperties
  availableExtensions : List ExtensionProperties
  glfwRequiredExtensions : List String
  physicalDevices : List PhysicalDevice
  createInstanceOk : Bool
  hasCreateDebugUtilsMessengerEXT : Bool
  createDebugMessengerOk : Bool
  hasDestroyDebugUtilsMessengerEXT : Bool
  createSurfaceOk : Bool
  createDeviceOk : Bool
deriving DecidableEq, Repr

/-- main.cpp lines 69-75: `struct QueueFamilyIndices`. -/
structure QueueFamilyIndices where
  graphicsFamily : Option Nat := none
deriving DecidableEq, Repr

/-- main.cpp lines 72-74: `isComplete`. -/
def QueueFamilyIndices.isComplete (s : QueueFamilyIndices) : Bool :=
  s.graphicsFamily.isSome

/-- main.cpp lines 377-384: the single `VkDeviceQueueCreateInfo`.
Queue priorities are C floats; the only value used, `1.0f`, is exactly
representable, so priorities are modelled as rationals. -/
structure DeviceQueueCreateInfo where
  queueFamilyIndex : Nat
  queueCount : Nat
  queuePriorities : List ℚ
deriving DecidableEq, Repr

/-- main.cpp line 387: `VkPhysicalDeviceFeatures deviceFeatures{}` is
value-initialized, every feature boolean `VK_FALSE`. The model keeps a
representative subset of the feature booleans; value-initialization is the
record with every field at its `false` default. -/
structure PhysicalDeviceFeatures where
  robustBufferAccess : Bool := false
  geometryShader : Bool := false
  tessellationShader : Bool := false
  samplerAnisotropy : Bool := false
deriving DecidableEq, Repr

/-- main.cpp lines 390-404: the `VkDeviceCreateInfo` handed to
`vkCreateDevice`, restricted to the fields the code sets. -/
structure DeviceCreateInfo where
  queueCreateInfos : List DeviceQueueCreateInfo
  pEnabledFeatures : PhysicalDeviceFeatures
  enabledExtensionNames : List String
  enabledLayerNames : List String
deriving DecidableEq, Repr

/-- main.cpp lines 156-176: the `VkInstanceCreateInfo` handed to
`vkCreateInstance`, restricted to the fields the code sets
(`pNext` chaining of the debug create info is recorded as a flag). -/
structure InstanceCreateInfo where
  enabledExtensionNames : List String
  enabledLayerNames : List String
  hasDebugChain : Bool
deriving DecidableEq, Repr

/-- Observable calls a run makes into the driver/loader, in program order.
`logExtensionsSupported` records the `std::cout` line of main.cpp
lines 180-185 carrying the extension-support boolean. -/
inductive Event where
  | checkLayerSupport
  | enumerateInstanceExtensionProperties
  | logExtensionsSupported (supported : Bool)
  | createInstanceCall
  | createDebugMessengerCall
  | createSurfaceCall
  | enumeratePhysicalDevices
  | getQueueFamilyProperties
  | createDeviceCall (info : DeviceCreateInfo)
  | getDeviceQueueCall (familyIndex queueIndex : Nat)
deriving DecidableEq, Repr

/-- The four owning handles the bootstrap constructs (the queue handle is a
non-owning view and `GLFWwindow` is outside the Vulkan bootstrap). -/
inductive Handle where
  | context
  | diagnostics
  | surface
  | device
deriving DecidableEq, Repr

/-- main.cpp lines 283-304: `checkValidationLayerSupport`. The outer loop
with its `layerFound` flag and early `return false` is exactly: every
requested layer name occurs (strcmp-equal) among the available layers. -/
def checkValidationLayerSupport (w : World) : Bool :=
  validationLayers.all fun layerName =>
    w.availableLayers.any fun layerProperties =>
      layerProperties.layerName = layerName

/-- main.cpp lines 195-206: `getRequiredExtensions`: GLFW's required
extensions, plus the debug-utils extension when validation is enabled. -/
def getRequiredExtensions (cfg : Config) (w : World) : List String :=
  w.glfwRequiredExtensions ++
    (if cfg.enableValidationLayers then [VK_EXT_DEBUG_UTILS_EXTENSION_NAME] else [])

/-- main.cpp lines 209-256: `isGLFWExtensionsSupported`: the nested loops
with `extension_found` and early `return false` are exactly: every GLFW
extension name occurs among the enumerated instance extensions. -/
def isGLFWExtensionsSupported (w : World) (glfw_extensions : List String) : Bool :=
  glfw_extensions.all fun glfw_extension =>
    w.availableExtensions.any fun vk_extension =>
      vk_extension.extensionName = glfw_extension

/-- main.cpp lines 141-192: `createInstance`. Returns the call trace and
either the `VkInstanceCreateInfo` that created the instance or the thrown
message. Line 142's `&&` short-circuits: the layer check runs only when
validation is enabled. Lines 180-185 log the extension-support boolean and
nothing else consumes it. -/
def createInstance (cfg : Config) (w : World) :
    List Event × Except String InstanceCreateInfo :=
  if cfg.enableValidationLayers && !(checkValidationLayerSupport w) then
    ([Event.checkLayerSupport],
     .error "validation layers requested, but not available!")
  else
    let layerCheckTrace : List Event :=
      if cfg.enableValidationLayers then [Event.checkLayerSupport] else []
    let extensions := getRequiredExtensions cfg w
    let createInfo : InstanceCreateInfo :=
      { enabledExtensionNames := extensions
        enabledLayerNames :=
          if cfg.enableValidationLayers then validationLayers else []
        hasDebugChain := cfg.enableValidationLayers }
    let supported := isGLFWExtensionsSupported w extensions
    let trace := layerCheckTrace ++
      [Event.enumerateInstanceExtensionProperties,
       Event.logExtensionsSupported supported,
       Event.createInstanceCall]
    (trace,
     if w.createInstanceOk then .ok createInfo
     else .error "failed to create instance!")

/-- main.cpp lines 37-52: the free function `CreateDebugUtilsMessengerEXT`:
resolve the entry point dynamically; if present call it, else return
`VK_ERROR_EXTENSION_NOT_PRESENT`. Results other than success are folded to
`false`; the trace records whether the resolved function was invoked. -/
def CreateDebugUtilsMessengerEXT (w : World) : List Event × Bool :=
  if w.hasCreateDebugUtilsMessengerEXT then
    ([Event.createDebugMessengerCall], w.createDebugMessengerOk)
  else
    ([], false)

/-- main.cpp lines 259-267: `setupDebugMessenger`: early return when
validation is disabled, otherwise hard failure unless
`CreateDebugUtilsMessengerEXT` returns `VK_SUCCESS`. -/
def setupDebugMessenger (cfg : Config) (w : World) :
    List Event × Except String Unit :=
  if !cfg.enableValidationLayers then
    ([], .ok ())
  else
    let (trace, ok) := CreateDebugUtilsMessengerEXT w
    (trace,
     if ok then .ok ()
     else .error "failed to set up debug messenger!")

/-- main.cpp lines 307-311: `createSurface`. -/
def createSurface (w : World) : List Event × Except String Unit :=
  ([Event.createSurfaceCall],
   if w.createSurfaceOk then .ok ()
   else .error "failed to create window surface!")

/-- main.cpp lines 358-367: the loop body of `findQueueFamilies`: walk the
queue families with counter `i`, record `graphicsFamily = i` whenever the
graphics bit is set, and break as soon as `indices.isComplete()`. -/
def findQueueFamiliesLoop :
    List QueueFamilyProperties → Nat → QueueFamilyIndices → QueueFamilyIndices
  | [], _, indices => indices
  | queueFamily :: rest, i, indices =>
    let indices :=
      if queueFamily.queueFlags &&& VK_QUEUE_GRAPHICS_BIT != 0 then
        { indices with graphicsFamily := some i }
      else indices
    if indices.isComplete then indices
    else findQueueFamiliesLoop rest (i + 1) indices

/-- main.cpp lines 348-370: `findQueueFamilies`: query the queue-family
properties and run the scan starting from index 0 and empty indices. -/
def findQueueFamilies (device : PhysicalDevice) :
    List Event × QueueFamilyIndices :=
  ([Event.getQueueFamilyProperties],
   findQueueFamiliesLoop device.queueFamilies 0 {})

/-- main.cpp lines 341-345: `isDeviceSuitable`. -/
def isDeviceSuitable (device : PhysicalDevice) : List Event × Bool :=
  let (trace, indices) := findQueueFamilies device
  (trace, indices.isComplete)

/-- The pure suitability predicate (the Bool `isDeviceSuitable` computes). -/
def suitableB (device : PhysicalDevice) : Bool :=
  (findQueueFamiliesLoop device.queueFamilies 0 {}).isComplete

/-- main.cpp lines 328-333: the selection loop of `pickPhysicalDevice`:
take the first suitable device and break; `none` models
`physicalDevice` left at `VK_NULL_HANDLE`. -/
def pickLoop : List PhysicalDevice → List Event × Option PhysicalDevice
  | [] => ([], none)
  | device :: rest =>
    let (trace, suitable) := isDeviceSuitable device
    if suitable then (trace, some device)
    else
      let (trace2, r) := pickLoop rest
      (trace ++ trace2, r)

/-- main.cpp lines 314-338: `pickPhysicalDevice`: enumerate (count query
first; on zero throw before the second, data-filling, enumeration call),
then scan for the first suitable device, throwing if none is found. -/
def pickPhysicalDevice (w : World) :
    List Event × Except String PhysicalDevice :=
  if w.physicalDevices.length = 0 then
    ([Event.enumeratePhysicalDevices],
     .error "failed to find GPUs with Vulkan support!")
  else
    let trace := (pickLoop w.physicalDevices).1
    match (pickLoop w.physicalDevices).2 with
    | some device =>
      ([Event.enumeratePhysicalDevices, Event.enumeratePhysicalDevices]
        ++ trace, .ok device)
    | none =>
      ([Event.enumeratePhysicalDevices, Event.enumeratePhysicalDevices]
        ++ trace, .error "failed to find a suitable GPU!")

/-- main.cpp lines 373-411: `createLogicalDevice`: recompute the queue
families of the picked device, build the single-queue `VkDeviceCreateInfo`
(queue count 1, priority 1.0, value-initialized features, zero device
extensions, the context-level validation layers re-supplied when enabled),
create the device and retrieve queue 0 of the graphics family. The `none`
branch models `std::optional::value()` throwing `bad_optional_access` at
line 379. On success the result carries the create info and the
`(familyIndex, queueIndex)` pair passed to `vkGetDeviceQueue`. -/
def createLogicalDevice (cfg : Config) (w : World)
    (physicalDevice : PhysicalDevice) :
    List Event × Except String (DeviceCreateInfo × Nat × Nat) :=
  let (trace1, indices) := findQueueFamilies physicalDevice
  match indices.graphicsFamily with
  | none => (trace1, .error "bad optional access")
  | some fam =>
    let queueCreateInfo : DeviceQueueCreateInfo :=
      { queueFamilyIndex := fam, queueCount := 1, queuePriorities := [1] }
    let deviceFeatures : PhysicalDeviceFeatures := {}
    let createInfo : DeviceCreateInfo :=
      { queueCreateInfos := [queueCreateInfo]
        pEnabledFeatures := deviceFeatures
        enabledExtensionNames := []
        enabledLayerNames :=
          if cfg.enableValidationLayers then validationLayers else [] }
    (trace1 ++ [Event.createDeviceCall createInfo] ++
       (if w.createDeviceOk then [Event.getDeviceQueueCall fam 0] else []),
     if w.createDeviceOk then .ok (createInfo, fam, 0)
     else .error "failed to create logical device!")

/-- main.cpp lines 110-116: `initVulkan`: the five stages in order; a
thrown exception propagates immediately. Returns the accumulated call
trace, the handles constructed so far in construction order, and the
overall result. The diagnostics handle exists exactly when validation is
enabled and `setupDebugMessenger` succeeded; the queue is a non-owning
view, not a handle. -/
def initVulkan (cfg : Config) (w : World) :
    List Event × List Handle × Except String Unit :=
  let t1 := (createInstance cfg w).1
  match (createInstance cfg w).2 with
  | .error e => (t1, [], .error e)
  | .ok _ =>
    let c1 : List Handle := [Handle.context]
    let t2 := (setupDebugMessenger cfg w).1
    match (setupDebugMessenger cfg w).2 with
    | .error e => (t1 ++ t2, c1, .error e)
    | .ok _ =>
      let c2 := c1 ++
        (if cfg.enableValidationLayers then [Handle.diagnostics] else [])
      let t3 := (createSurface w).1
      match (createSurface w).2 with
      | .error e => (t1 ++ t2 ++ t3, c2, .error e)
      | .ok _ =>
        let c3 := c2 ++ [Handle.surface]
        let t4 := (pickPhysicalDevice w).1
        match (pickPhysicalDevice w).2 with
        | .error e => (t1 ++ t2 ++ t3 ++ t4, c3, .error e)
        | .ok physicalDevice =>
          let t5 := (createLogicalDevice cfg w physicalDevice).1
          match (createLogicalDevice cfg w physicalDevice).2 with
          | .error e => (t1 ++ t2 ++ t3 ++ t4 ++ t5, c3, .error e)
          | .ok _ =>
            (t1 ++ t2 ++ t3 ++ t4 ++ t5, c3 ++ [Handle.device], .ok ())

/-- main.cpp lines 126-138: `cleanup`, as the ordered list of Vulkan
handles it destroys: device, then (when validation is enabled and the
destroy entry point resolves) the debug messenger, then surface, then
instance. `glfwDestroyWindow`/`glfwTerminate` concern the window, outside
the Vulkan handle set. -/
def cleanup (cfg : Config) (w : World) : List Handle :=
  [Handle.device] ++
    (if cfg.enableValidationLayers && w.hasDestroyDebugUtilsMessengerEXT
     then [Handle.diagnostics] else []) ++
    [Handle.surface, Handle.context]

/-- Outcome of a whole run: result, handles in construction order, handles
in destruction order, driver-call trace. -/
structure RunOutcome where
  result : Except String Unit
  constructed : List Handle
  destroyed : List Handle
  events : List Event
deriving Repr

/-- main.cpp lines 80-85 and 440-445: `run` calls `initVulkan`, then
`mainLoop`, then `cleanup`; an exception thrown inside `initVulkan`
propagates straight to the catch in `main`, so `cleanup` runs only when
`initVulkan` succeeded. -/
def runApp (cfg : Config) (w : World) : RunOutcome :=
  match (initVulkan cfg w).2.2 with
  | .error e =>
    { result := .error e, constructed := (initVulkan cfg w).2.1
      destroyed := [], events := (initVulkan cfg w).1 }
  | .ok _ =>
    { result := .ok (), constructed := (initVulkan cfg w).2.1
      destroyed := cleanup cfg w, events := (initVulkan cfg w).1 }

/-! Concrete fixtures used by witnesses and counterexamples. -/

/-- The source's actual configuration (main.cpp lines 31-33, NDEBUG undefined). -/
def cfgOn : Config := { enableValidationLayers := true, log_extensions := true }

/-- The NDEBUG configuration (main.cpp lines 29-30). -/
def cfgOff : Config := { enableValidationLayers := false, log_extensions := true }

/-- A queue family whose `queueFlags` carry the graphics bit. -/
def gfxQF : QueueFamilyProperties := { queueFlags := 1 }

/-- A compute-only queue family (no graphics bit). -/
def computeQF : QueueFamilyProperties := { queueFlags := 2 }

/-- A device whose only queue family supports graphics. -/
def devGfx : PhysicalDevice := { queueFamilies := [gfxQF] }

/-- A device with no graphics-capable queue family. -/
def devNoGfx : PhysicalDevice := { queueFamilies := [computeQF] }

/-- A fully cooperative environment: the validation layer and all required
extensions available, every creation call succeeding, both debug-utils
entry points resolvable, one graphics-capable device. -/
def goodWorld : World :=
  { availableLayers := [{ layerName := "VK_LAYER_KHRONOS_validation" }]
    availableExtensions :=
      [{ extensionName := "VK_KHR_surface" },
       { extensionName := "VK_EXT_debug_utils" }]
    glfwRequiredExtensions := ["VK_KHR_surface"]
    physicalDevices := [devGfx]
    createInstanceOk := true
    hasCreateDebugUtilsMessengerEXT := true
    createDebugMessengerOk := true
    hasDestroyDebugUtilsMessengerEXT := true
    createSurfaceOk := true
    createDeviceOk := true }

/-- The synthetic device list of the spec's testable property: device 0
lacks the graphics capability, device 1 has it at family index 2. -/
def synthDevices : List PhysicalDevice :=
  [devNoGfx, { queueFamilies := [computeQF, computeQF, gfxQF] }]

/-- The synthetic-list world for the spec's first-fit property. -/
def synthWorld : World := { goodWorld with physicalDevices := synthDevices }

/-- No physical device enumerated. -/
def emptyDevWorld : World := { goodWorld with physicalDevices := [] }

/-- One device enumerated, none suitable. -/
def noSuitableWorld : World := { goodWorld with physicalDevices := [devNoGfx] }

/-- `goodWorld` except surface creation fails (glfwCreateWindowSurface
returning non-success). -/
def surfaceFailWorld : World := { goodWorld with createSurfaceOk := false }

/-- `goodWorld` except the driver reports no layers at all, so the required
validation layer is missing from the capability catalog. -/
def noLayerWorld : World := { goodWorld with availableLayers := [] }

/-- `goodWorld` except `vkGetInstanceProcAddr` cannot resolve
`vkCreateDebugUtilsMessengerEXT`. -/
def noDbgWorld : World :=
  { goodWorld with hasCreateDebugUtilsMessengerEXT := false }

/-- Recognizer for `vkGetDeviceQueue` events, for counting retrievals. -/
def isGetDeviceQueue : Event → Bool
  | Event.getDeviceQueueCall _ _ => true
  | _ => false

/-! Substring test used to formalize an error message "naming" a layer. -/

deriving instance DecidableEq for Except

def startsWith : List Char → List Char → Bool
  | [], _ => true
  | _ :: _, [] => false
  | c :: cs, d :: ds => c == d && startsWith cs ds

def hasSub (pattern text : List Char) : Bool :=
  match text with
  | [] => pattern.isEmpty
  | _ :: rest => startsWith pattern text || hasSub pattern rest

def mentions (msg name : String) : Bool := hasSub name.data msg.data

/-! Bridge lemmas from `runApp` to `initVulkan`. -/

theorem runApp_result (cfg : Config) (w : World) :
    (runApp cfg w).result = (initVulkan cfg w).2.2 := by
  rcases h : initVulkan cfg w with ⟨t, c, r⟩
  cases r <;> simp [runApp, h]

theorem runApp_events (cfg : Config) (w : World) :
    (runApp cfg w).events = (initVulkan cfg w).1 := by
  rcases h : initVulkan cfg w with ⟨t, c, r⟩
  cases r <;> simp [runApp, h]

theorem runApp_constructed (cfg : Config) (w : World) :
    (runApp cfg w).constructed = (initVulkan cfg w).2.1 := by
  rcases h : initVulkan cfg w with ⟨t, c, r⟩
  cases r <;> simp [runApp, h]

/-! Per-stage trace characterizations. -/

theorem isDeviceSuitable_eq (d : PhysicalDevice) :
    isDeviceSuitable d = ([Event.getQueueFamilyProperties], suitableB d) := rfl

theorem mem_pickLoop_trace (ds : List PhysicalDevice) (e : Event)
    (he : e ∈ (pickLoop ds).1) : e = Event.getQueueFamilyProperties := by
  induction ds with
  | nil => simp [pickLoop] at he
  | cons d rest ih =>
    simp only [pickLoop, isDeviceSuitable_eq] at he
    split at he
    · simp at he; exact he
    · simp at he
      rcases he with he | he
      · exact he
      · exact ih he

theorem mem_pick_trace (w : World) (e : Event)
    (he : e ∈ (pickPhysicalDevice w).1) :
    e = Event.enumeratePhysicalDevices ∨ e = Event.getQueueFamilyProperties := by
  simp only [pickPhysicalDevice] at he
  split at he
  · simp at he; left; exact he
  · split at he <;> simp at he <;>
      rcases he with he | he <;>
      first
        | (left; exact he)
        | (right; exact mem_pickLoop_trace _ _ he)

theorem chkE_not_mem_pick (w : World) :
    Event.checkLayerSupport ∉ (pickPhysicalDevice w).1 := by
  intro he
  rcases mem_pick_trace w _ he with h | h <;> simp at h

theorem dbgE_not_mem_pick (w : World) :
    Event.createDebugMessengerCall ∉ (pickPhysicalDevice w).1 := by
  intro he
  rcases mem_pick_trace w _ he with h | h <;> simp at h

theorem mem_cld_trace (cfg : Config) (w : World) (pd : PhysicalDevice) (e : Event)
    (he : e ∈ (createLogicalDevice cfg w pd).1) :
    e = Event.getQueueFamilyProperties ∨
    (∃ info, e = Event.createDeviceCall info) ∨
    (∃ f q, e = Event.getDeviceQueueCall f q) := by
  simp only [createLogicalDevice, findQueueFamilies] at he
  split at he
  · simp at he; left; exact he
  · simp at he
    rcases he with he | he | ⟨-, he⟩
    · left; exact he
    · right; left; exact ⟨_, he⟩
    · right; right; exact ⟨_, _, he⟩

theorem chkE_not_mem_cld (cfg : Config) (w : World) (pd : PhysicalDevice) :
    Event.checkLayerSupport ∉ (createLogicalDevice cfg w pd).1 := by
  intro he
  rcases mem_cld_trace cfg w pd _ he with h | ⟨i, h⟩ | ⟨f, q, h⟩ <;> simp at h

theorem dbgE_not_mem_cld (cfg : Config) (w : World) (pd : PhysicalDevice) :
    Event.createDebugMessengerCall ∉ (createLogicalDevice cfg w pd).1 := by
  intro he
  rcases mem_cld_trace cfg w pd _ he with h | ⟨i, h⟩ | ⟨f, q, h⟩ <;> simp at h

theorem createInstance_trace_disabled (cfg : Config) (w : World)
    (h : cfg.enableValidationLayers = false) :
    (createInstance cfg w).1 =
      [Event.enumerateInstanceExtensionProperties,
       Event.logExtensionsSupported
         (isGLFWExtensionsSupported w (getRequiredExtensions cfg w)),
       Event.createInstanceCall] := by
  simp [createInstance, h]

theorem setup_trace_disabled (cfg : Config) (w : World)
    (h : cfg.enableValidationLayers = false) :
    (setupDebugMessenger cfg w).1 = [] := by
  simp [setupDebugMessenger, h]

/-- With validation disabled, no event of the whole bootstrap is the
layer-verification call. -/
theorem chkE_not_mem_init (cfg : Config) (w : World)
    (h : cfg.enableValidationLayers = false) :
    Event.checkLayerSupport ∉ (initVulkan cfg w).1 := by
  intro he
  have h1 := createInstance_trace_disabled cfg w h
  have h2 := setup_trace_disabled cfg w h
  have h4 := chkE_not_mem_pick w
  have h5 := fun pd => chkE_not_mem_cld cfg w pd
  unfold initVulkan at he
  repeat' split at he
  all_goals simp_all [createSurface]

/-- With validation disabled, no event of the whole bootstrap is the
debug-messenger creation call. -/
theorem dbgE_not_mem_init (cfg : Config) (w : World)
    (h : cfg.enableValidationLayers = false) :
    Event.createDebugMessengerCall ∉ (initVulkan cfg w).1 := by
  intro he
  have h1 := createInstance_trace_disabled cfg w h
  have h2 := setup_trace_disabled cfg w h
  have h4 := dbgE_not_mem_pick w
  have h5 := fun pd => dbgE_not_mem_cld cfg w pd
  unfold initVulkan at he
  repeat' split at he
  all_goals simp_all [createSurface]

/-- A successful bootstrap constructs context, optional diagnostics,
surface and device, in that order. -/
theorem initVulkan_ok_constructed (cfg : Config) (w : World)
    (h : (initVulkan cfg w).2.2 = .ok ()) :
    (initVulkan cfg w).2.1 =
      [Handle.context] ++
        (if cfg.enableValidationLayers then [Handle.diagnostics] else []) ++
        [Handle.surface, Handle.device] := by
  unfold initVulkan at *
  repeat' split at h
  all_goals simp_all

/-! First-fit selection lemmas. -/

theorem findLoop_first (qfs : List QueueFamilyProperties) (i j : Nat)
    (hj : j < qfs.length)
    (hbit : ((qfs.get ⟨j, hj⟩).queueFlags &&& VK_QUEUE_GRAPHICS_BIT != 0) = true)
    (hjfirst : ∀ k (hk : k < j),
      ((qfs.get ⟨k, hk.trans hj⟩).queueFlags &&& VK_QUEUE_GRAPHICS_BIT != 0) = false) :
    (findQueueFamiliesLoop qfs i {}).graphicsFamily = some (i + j) := by
  induction qfs generalizing i j with
  | nil => simp at hj
  | cons qf rest ih =>
    cases j with
    | zero =>
      simp at hbit
      simp [findQueueFamiliesLoop, hbit, QueueFamilyIndices.isComplete]
    | succ j =>
      have h0 := hjfirst 0 (Nat.succ_pos j)
      simp at h0
      have hrec := ih (i + 1) j (Nat.lt_of_succ_lt_succ hj)
        (by simpa using hbit)
        (fun k hk => by simpa using hjfirst (k + 1) (Nat.succ_lt_succ hk))
      have h2 : i + (j + 1) = i + 1 + j := by omega
      rw [h2]
      simpa [findQueueFamiliesLoop, h0, QueueFamilyIndices.isComplete]
        using hrec

theorem pickLoop_first (ds : List PhysicalDevice) (i : Nat)
    (hi : i < ds.length)
    (hfirst : ∀ k (hk : k < i), suitableB (ds.get ⟨k, hk.trans hi⟩) = false)
    (hsuit : suitableB (ds.get ⟨i, hi⟩) = true) :
    (pickLoop ds).2 = some (ds.get ⟨i, hi⟩) := by
  induction ds generalizing i with
  | nil => simp at hi
  | cons d rest ih =>
    cases i with
    | zero =>
      simp at hsuit
      simp [pickLoop, isDeviceSuitable_eq, hsuit]
    | succ i =>
      have h0 := hfirst 0 (Nat.succ_pos i)
      simp at h0
      simp only [pickLoop, isDeviceSuitable_eq, h0]
      simp only [Bool.false_eq_true, if_false]
      have := ih i (Nat.lt_of_succ_lt_succ hi)
        (fun k hk => by simpa using hfirst (k + 1) (Nat.succ_lt_succ hk))
        (by simpa using hsuit)
      simpa using this

theorem pickLoop_none (ds : List PhysicalDevice)
    (h : ∀ d ∈ ds, suitableB d = false) :
    (pickLoop ds).2 = none := by
  induction ds with
  | nil => simp [pickLoop]
  | cons d rest ih =>
    have hd := h d (List.mem_cons_self d rest)
    simp only [pickLoop, isDeviceSuitable_eq, hd]
    simp only [Bool.false_eq_true, if_false]
    simpa using ih fun x hx => h x (List.mem_cons_of_mem d hx)

theorem pickLoop_some_suitable (ds : List PhysicalDevice) (d : PhysicalDevice)
    (h : (pickLoop ds).2 = some d) : suitableB d = true := by
  induction ds with
  | nil => simp [pickLoop] at h
  | cons d0 rest ih =>
    simp only [pickLoop, isDeviceSuitable_eq] at h
    split at h
    · simp at h
      subst h
      assumption
    · simp at h
      exact ih h


/-- Claim C4: for every device list, when index `i` is the first device in
enumeration order with a graphics-capable queue family and `j` is the
lowest such family index on that device, `pickPhysicalDevice` selects
device `i` and `findQueueFamilies` on it records family `j`. -/
theorem first_fit_selection (w : World) (i j : Nat)
    (hi : i < w.physicalDevices.length)
    (hfirst : ∀ k (hk : k < i),
      suitableB (w.physicalDevices.get ⟨k, hk.trans hi⟩) = false)
    (hj : j < (w.physicalDevices.get ⟨i, hi⟩).queueFamilies.length)
    (hbit : (((w.physicalDevices.get ⟨i, hi⟩).queueFamilies.get ⟨j, hj⟩).queueFlags
        &&& VK_QUEUE_GRAPHICS_BIT != 0) = true)
    (hjfirst : ∀ k (hk : k < j),
      (((w.physicalDevices.get ⟨i, hi⟩).queueFamilies.get ⟨k, hk.trans hj⟩).queueFlags
        &&& VK_QUEUE_GRAPHICS_BIT != 0) = false) :
    (pickPhysicalDevice w).2 = .ok (w.physicalDevices.get ⟨i, hi⟩) ∧
    (findQueueFamiliesLoop (w.physicalDevices.get ⟨i, hi⟩).queueFamilies 0
        {}).graphicsFamily = some j := by
  have hfam := findLoop_first _ 0 j hj hbit hjfirst
  rw [Nat.zero_add] at hfam
  have hsuit : suitableB (w.physicalDevices.get ⟨i, hi⟩) = true := by
    simp only [suitableB, QueueFamilyIndices.isComplete, hfam, Option.isSome_some]
  have hpick := pickLoop_first w.physicalDevices i hi hfirst hsuit
  refine ⟨?_, hfam⟩
  have hlen : ¬(w.physicalDevices.length = 0) := by omega
  simp [pickPhysicalDevice, hlen, hpick]

/-- Claim C4, witness: the spec's synthetic list — device 0 without the
capability, device 1 with it at family index 2 — selects
(device 1, family 2). -/
theorem first_fit_selection_witness :
    (pickPhysicalDevice synthWorld).2 =
      .ok { queueFamilies := [computeQF, computeQF, gfxQF] } ∧
    (findQueueFamiliesLoop [computeQF, computeQF, gfxQF] 0 {}).graphicsFamily =
      some 2 := by
  have h := first_fit_selection synthWorld 1 2 (by decide) (by decide)
    (by decide) (by decide) (by decide)
  simpa [synthWorld, synthDevices, devNoGfx, computeQF, gfxQF] using h

/-- Claim C5: an empty enumerated device list fails with the
no-GPU-found error, a non-empty list with no suitable device fails with
the distinct no-suitable-GPU error (main.cpp lines 320-322 and
335-337). -/
theorem device_selection_error_kinds (w : World) :
    (w.physicalDevices = [] →
      (pickPhysicalDevice w).2 =
        .error "failed to find GPUs with Vulkan support!") ∧
    (w.physicalDevices ≠ [] →
      (∀ d ∈ w.physicalDevices, suitableB d = false) →
      (pickPhysicalDevice w).2 = .error "failed to find a suitable GPU!") ∧
    ("failed to find GPUs with Vulkan support!" : String) ≠
      "failed to find a suitable GPU!" := by
  refine ⟨?_, ?_, by decide⟩
  · intro h
    simp [pickPhysicalDevice, h]
  · intro hne hall
    have hnone := pickLoop_none w.physicalDevices hall
    have hlen : ¬(w.physicalDevices.length = 0) := by
      simpa [List.length_eq_zero] using hne
    simp [pickPhysicalDevice, hlen, hnone]

/-- Claim C5, witness: `device_selection_error_kinds` applied to a
concrete empty list and a concrete unsuitable-only list. -/
theorem device_selection_error_kinds_witness :
    (pickPhysicalDevice emptyDevWorld).2 =
      .error "failed to find GPUs with Vulkan support!" ∧
    (pickPhysicalDevice noSuitableWorld).2 =
      .error "failed to find a suitable GPU!" :=
  ⟨(device_selection_error_kinds emptyDevWorld).1 rfl,
   (device_selection_error_kinds noSuitableWorld).2.1 (by decide) (by decide)⟩

/-- Claim C10: whenever physical-device selection succeeds, the
recomputed queue-family lookup in `createLogicalDevice` yields a present
optional index, so the unconditional `value()` at main.cpp line 379 never
reaches the empty-optional error branch. -/
theorem pick_success_implies_family_present (cfg : Config) (w : World)
    (pd : PhysicalDevice) (h : (pickPhysicalDevice w).2 = .ok pd) :
    (findQueueFamiliesLoop pd.queueFamilies 0 {}).graphicsFamily.isSome = true ∧
    (createLogicalDevice cfg w pd).2 ≠ .error "bad optional access" := by
  have hsuit : suitableB pd = true := by
    simp only [pickPhysicalDevice] at h
    split at h
    · simp at h
    · split at h
      · simp at h
        subst h
        exact pickLoop_some_suitable _ _ (by assumption)
      · simp at h
  have hsome :
      (findQueueFamiliesLoop pd.queueFamilies 0 {}).graphicsFamily.isSome = true := by
    simpa only [suitableB, QueueFamilyIndices.isComplete] using hsuit
  refine ⟨hsome, ?_⟩
  obtain ⟨fam, hfam⟩ := Option.isSome_iff_exists.mp hsome
  simp only [createLogicalDevice, findQueueFamilies, hfam]
  split <;> simp

/-- Claim C10, witness: `pick_success_implies_family_present` applied to
the concrete successful selection on `goodWorld`. -/
theorem pick_success_implies_family_present_witness :
    (findQueueFamiliesLoop devGfx.queueFamilies 0 {}).graphicsFamily.isSome = true ∧
    (createLogicalDevice cfgOn goodWorld devGfx).2 ≠ .error "bad optional access" :=
  pick_success_implies_family_present cfgOn goodWorld devGfx (by decide)

theorem runApp_destroyed_ok (cfg : Config) (w : World)
    (h : (initVulkan cfg w).2.2 = .ok ()) :
    (runApp cfg w).destroyed = cleanup cfg w := by
  simp [runApp, h]

/-- Claim C1, counterexample: on a fully cooperative environment with
diagnostics enabled, the run succeeds, handles are constructed in order
[Context, Diagnostics, Surface, Device], yet `cleanup` destroys them in
order [Device, Diagnostics, Surface, Context] — not the exact reverse
[Device, Surface, Diagnostics, Context] the claim states (main.cpp
lines 126-134 destroy the debug messenger before the surface). -/
theorem teardown_not_exact_reverse :
    (runApp cfgOn goodWorld).result = .ok () ∧
    (runApp cfgOn goodWorld).constructed =
      [Handle.context, Handle.diagnostics, Handle.surface, Handle.device] ∧
    (runApp cfgOn goodWorld).destroyed ≠
      (runApp cfgOn goodWorld).constructed.reverse ∧
    (runApp cfgOn goodWorld).destroyed =
      [Handle.device, Handle.diagnostics, Handle.surface, Handle.context] :=
  ⟨by decide, by decide, by decide, by decide⟩

/-- Claim C1, amended: for every successful run, teardown begins with the
device and ends with the context, but with diagnostics enabled the order is
[Device, Diagnostics, Surface, Context] — the exact reverse of construction
except that the diagnostics channel is destroyed before the surface. With
diagnostics disabled the teardown [Device, Surface, Context] is the exact
reverse of construction. -/
theorem teardown_order_swapped (cfg : Config) (w : World)
    (hok : (runApp cfg w).result = .ok ())
    (hdestroy : w.hasDestroyDebugUtilsMessengerEXT = true) :
    (cfg.enableValidationLayers = true →
      (runApp cfg w).constructed =
        [Handle.context, Handle.diagnostics, Handle.surface, Handle.device] ∧
      (runApp cfg w).destroyed =
        [Handle.device, Handle.diagnostics, Handle.surface, Handle.context]) ∧
    (cfg.enableValidationLayers = false →
      (runApp cfg w).destroyed = (runApp cfg w).constructed.reverse) := by
  rw [runApp_result] at hok
  have hcons := initVulkan_ok_constructed cfg w hok
  have hdest := runApp_destroyed_ok cfg w hok
  constructor
  · intro he
    constructor
    · rw [runApp_constructed, hcons, he]
      simp
    · rw [hdest]
      simp [cleanup, he, hdestroy]
  · intro he
    rw [hdest, runApp_constructed, hcons]
    simp [cleanup, he]

/-- Claim C1, witness: `teardown_order_swapped` applied to the concrete
successful run on `goodWorld`. -/
theorem teardown_order_swapped_witness :
    (cfgOn.enableValidationLayers = true →
      (runApp cfgOn goodWorld).constructed =
        [Handle.context, Handle.diagnostics, Handle.surface, Handle.device] ∧
      (runApp cfgOn goodWorld).destroyed =
        [Handle.device, Handle.diagnostics, Handle.surface, Handle.context]) ∧
    (cfgOn.enableValidationLayers = false →
      (runApp cfgOn goodWorld).destroyed =
        (runApp cfgOn goodWorld).constructed.reverse) :=
  teardown_order_swapped cfgOn goodWorld (by decide) (by decide)

/-- Claim C2: evaluation at the failing input. When surface creation fails
after the instance and debug messenger were created, the exception thrown
in `createSurface` propagates past `run` to the catch in `main`
(main.cpp lines 80-85, 440-445), so `cleanup` never runs: the run fails
with the surface error while the context and diagnostics handles remain
live and the destruction sequence is empty — contradicting the claim that
every handle created before the failing stage is released. -/
theorem surface_failure_leaks_handles :
    (runApp cfgOn surfaceFailWorld).result =
      .error "failed to create window surface!" ∧
    (runApp cfgOn surfaceFailWorld).constructed =
      [Handle.context, Handle.diagnostics] ∧
    (runApp cfgOn surfaceFailWorld).destroyed = [] :=
  ⟨by decide, by decide, by decide⟩

/-- Claim C3, counterexample: with diagnostics enabled and the required
validation layer absent from the catalog, the bootstrap fails with the
fixed message of main.cpp line 143, and that message does not contain the
missing layer's name — the error does not "name the first missing
layer". -/
theorem missing_layer_error_does_not_name_layer :
    (runApp cfgOn noLayerWorld).result =
      .error "validation layers requested, but not available!" ∧
    mentions "validation layers requested, but not available!"
      "VK_LAYER_KHRONOS_validation" = false :=
  ⟨by decide, by decide⟩

/-- Claim C3, amended: for every catalog missing a required validation
layer while diagnostics is enabled, negotiation fails with the fixed
capability-unavailable message (which does not name the layer), and the
failing run makes no physical-device enumeration call. -/
theorem missing_layer_aborts_before_enumeration (cfg : Config) (w : World)
    (henabled : cfg.enableValidationLayers = true)
    (hmiss : ∃ layerName ∈ validationLayers,
      ∀ lp ∈ w.availableLayers, lp.layerName ≠ layerName) :
    (runApp cfg w).result =
      .error "validation layers requested, but not available!" ∧
    Event.enumeratePhysicalDevices ∉ (runApp cfg w).events := by
  have hchk : checkValidationLayerSupport w = false := by
    obtain ⟨name, hnmem, hn⟩ := hmiss
    simp only [validationLayers, List.mem_singleton] at hnmem
    subst hnmem
    simp only [checkValidationLayerSupport, validationLayers, List.all_cons,
      List.all_nil, Bool.and_true]
    rw [List.any_eq_false]
    intro lp hlp
    simpa using hn lp hlp
  have hci : createInstance cfg w =
      ([Event.checkLayerSupport],
       .error "validation layers requested, but not available!") := by
    simp [createInstance, henabled, hchk]
  have hinit : initVulkan cfg w =
      ([Event.checkLayerSupport], [],
       .error "validation layers requested, but not available!") := by
    simp [initVulkan, hci]
  rw [runApp_result, runApp_events, hinit]
  exact ⟨rfl, by decide⟩

/-- Claim C3, witness: `missing_layer_aborts_before_enumeration` applied
to the concrete layerless catalog. -/
theorem missing_layer_aborts_before_enumeration_witness :
    (runApp cfgOn noLayerWorld).result =
      .error "validation layers requested, but not available!" ∧
    Event.enumeratePhysicalDevices ∉ (runApp cfgOn noLayerWorld).events :=
  missing_layer_aborts_before_enumeration cfgOn noLayerWorld (by decide)
    (by decide)

/-- Claim C6: for every run with diagnostics disabled, the
layer-verification routine is never invoked (no such event in the whole
run's trace, by the short-circuit at main.cpp line 142) and the instance
creation descriptor requests zero layer names (line 173). -/
theorem disabled_skips_layer_checks (cfg : Config) (w : World)
    (h : cfg.enableValidationLayers = false) :
    Event.checkLayerSupport ∉ (runApp cfg w).events ∧
    ∀ info, (createInstance cfg w).2 = .ok info →
      info.enabledLayerNames = [] := by
  constructor
  · rw [runApp_events]
    exact chkE_not_mem_init cfg w h
  · intro info hinfo
    cases hio : w.createInstanceOk with
    | false => simp [createInstance, h, hio] at hinfo
    | true =>
      simp [createInstance, h, hio] at hinfo
      subst hinfo
      rfl

/-- Claim C6, witness: `disabled_skips_layer_checks` at the NDEBUG
configuration on `goodWorld`. -/
theorem disabled_skips_layer_checks_witness :
    Event.checkLayerSupport ∉ (runApp cfgOff goodWorld).events ∧
    ∀ info, (createInstance cfgOff goodWorld).2 = .ok info →
      info.enabledLayerNames = [] :=
  disabled_skips_layer_checks cfgOff goodWorld (by decide)

/-- Claim C7: the extension-support verification is best-effort — its
boolean lands only in the log line, the `vkCreateInstance` call is made
regardless, and changing the driver's reported extension list cannot
change `createInstance`'s outcome (main.cpp lines 178-191). -/
theorem extension_check_best_effort (cfg : Config) (w : World)
    (exts : List ExtensionProperties)
    (h : cfg.enableValidationLayers = true → checkValidationLayerSupport w = true) :
    Event.createInstanceCall ∈ (createInstance cfg w).1 ∧
    Event.logExtensionsSupported
        (isGLFWExtensionsSupported w (getRequiredExtensions cfg w)) ∈
      (createInstance cfg w).1 ∧
    (createInstance cfg { w with availableExtensions := exts }).2 =
      (createInstance cfg w).2 := by
  have hchkeq : checkValidationLayerSupport { w with availableExtensions := exts } =
      checkValidationLayerSupport w := rfl
  have hgreq : getRequiredExtensions cfg { w with availableExtensions := exts } =
      getRequiredExtensions cfg w := rfl
  cases hcv : cfg.enableValidationLayers
  · refine ⟨?_, ?_, ?_⟩ <;>
      simp [createInstance, hcv, hchkeq, hgreq]
  · refine ⟨?_, ?_, ?_⟩ <;>
      simp [createInstance, hcv, h hcv, hchkeq, hgreq]

/-- Claim C7, witness: `extension_check_best_effort` on `goodWorld`
against an emptied extension catalog. -/
theorem extension_check_best_effort_witness :
    Event.createInstanceCall ∈ (createInstance cfgOn goodWorld).1 ∧
    Event.logExtensionsSupported
        (isGLFWExtensionsSupported goodWorld
          (getRequiredExtensions cfgOn goodWorld)) ∈
      (createInstance cfgOn goodWorld).1 ∧
    (createInstance cfgOn { goodWorld with availableExtensions := [] }).2 =
      (createInstance cfgOn goodWorld).2 :=
  extension_check_best_effort cfgOn goodWorld [] (fun _ => by decide)

theorem diag_not_mem_constructed (cfg : Config) (w : World)
    (h : cfg.enableValidationLayers = false) :
    Handle.diagnostics ∉ (initVulkan cfg w).2.1 := by
  intro hm
  unfold initVulkan at hm
  repeat' split at hm
  all_goals simp_all

/-- Claim C8: with diagnostics enabled, failure to resolve the
diagnostics-channel creation entry point makes the bootstrap fail hard
with the debug-messenger error (main.cpp lines 44-51, 265-266); with
diagnostics disabled no diagnostics channel is created at all (line 260:
no creation call occurs and no diagnostics handle exists). -/
theorem diagnostics_resolution_failure_fatal (cfg : Config) (w : World) :
    (cfg.enableValidationLayers = true →
      checkValidationLayerSupport w = true →
      w.createInstanceOk = true →
      w.hasCreateDebugUtilsMessengerEXT = false →
      (runApp cfg w).result = .error "failed to set up debug messenger!") ∧
    (cfg.enableValidationLayers = false →
      Event.createDebugMessengerCall ∉ (runApp cfg w).events ∧
      Handle.diagnostics ∉ (runApp cfg w).constructed) := by
  constructor
  · intro he hchk hio hno
    rw [runApp_result]
    have hci : (createInstance cfg w).2 =
        .ok { enabledExtensionNames := getRequiredExtensions cfg w
              enabledLayerNames := validationLayers
              hasDebugChain := true } := by
      simp [createInstance, he, hchk, hio]
    have hsd : setupDebugMessenger cfg w =
        ([], .error "failed to set up debug messenger!") := by
      simp [setupDebugMessenger, CreateDebugUtilsMessengerEXT, he, hno]
    simp [initVulkan, hci, hsd]
  · intro he
    refine ⟨?_, ?_⟩
    · rw [runApp_events]
      exact dbgE_not_mem_init cfg w he
    · rw [runApp_constructed]
      exact diag_not_mem_constructed cfg w he

/-- Claim C8, witness: `diagnostics_resolution_failure_fatal` at the
unresolvable-entry-point world (enabled half) and at the NDEBUG
configuration (disabled half). -/
theorem diagnostics_resolution_failure_fatal_witness :
    (runApp cfgOn noDbgWorld).result =
      .error "failed to set up debug messenger!" ∧
    Event.createDebugMessengerCall ∉ (runApp cfgOff goodWorld).events ∧
    Handle.diagnostics ∉ (runApp cfgOff goodWorld).constructed :=
  ⟨(diagnostics_resolution_failure_fatal cfgOn noDbgWorld).1
      (by decide) (by decide) (by decide) (by decide),
   ((diagnostics_resolution_failure_fatal cfgOff goodWorld).2 (by decide)).1,
   ((diagnostics_resolution_failure_fatal cfgOff goodWorld).2 (by decide)).2⟩

/-- Claim C9: the logical-device creation descriptor always requests
exactly one queue (count 1) with priority 1.0, the value-initialized
feature set, and zero device-level extensions; with diagnostics enabled
the context-level layer names are re-supplied; on success exactly one
queue handle is retrieved, for (device, selected family, queue index 0)
(main.cpp lines 373-411). -/
theorem device_descriptor_single_queue (cfg : Config) (w : World)
    (pd : PhysicalDevice) (fam : Nat)
    (h : (findQueueFamiliesLoop pd.queueFamilies 0 {}).graphicsFamily = some fam) :
    ∃ info : DeviceCreateInfo,
      Event.createDeviceCall info ∈ (createLogicalDevice cfg w pd).1 ∧
      info.queueCreateInfos =
        [{ queueFamilyIndex := fam, queueCount := 1, queuePriorities := [1] }] ∧
      info.pEnabledFeatures = {} ∧
      info.enabledExtensionNames = [] ∧
      (cfg.enableValidationLayers = true →
        info.enabledLayerNames = validationLayers) ∧
      (w.createDeviceOk = true →
        (createLogicalDevice cfg w pd).1.countP isGetDeviceQueue = 1 ∧
        Event.getDeviceQueueCall fam 0 ∈ (createLogicalDevice cfg w pd).1 ∧
        (createLogicalDevice cfg w pd).2 = .ok
          ({ queueCreateInfos :=
               [{ queueFamilyIndex := fam, queueCount := 1, queuePriorities := [1] }]
             pEnabledFeatures := {}
             enabledExtensionNames := []
             enabledLayerNames :=
               if cfg.enableValidationLayers then validationLayers else [] },
           fam, 0)) := by
  refine ⟨{ queueCreateInfos :=
              [{ queueFamilyIndex := fam, queueCount := 1, queuePriorities := [1] }]
            pEnabledFeatures := {}
            enabledExtensionNames := []
            enabledLayerNames :=
              if cfg.enableValidationLayers then validationLayers else [] },
          ?_, rfl, rfl, rfl, ?_, ?_⟩
  · simp [createLogicalDevice, findQueueFamilies, h]
  · intro he
    simp [he]
  · intro hok
    refine ⟨?_, ?_, ?_⟩
    · simp [createLogicalDevice, findQueueFamilies, h, hok,
        List.countP_cons, List.countP_nil, isGetDeviceQueue]
    · simp [createLogicalDevice, findQueueFamilies, h, hok]
    · simp [createLogicalDevice, findQueueFamilies, h, hok]

/-- Claim C9, witness: `device_descriptor_single_queue` at the concrete
graphics-capable device of `goodWorld` (family 0). -/
theorem device_descriptor_single_queue_witness :
    ∃ info : DeviceCreateInfo,
      Event.createDeviceCall info ∈
        (createLogicalDevice cfgOn goodWorld devGfx).1 ∧
      info.queueCreateInfos =
        [{ queueFamilyIndex := 0, queueCount := 1, queuePriorities := [1] }] ∧
      info.pEnabledFeatures = {} ∧
      info.enabledExtensionNames = [] ∧
      (cfgOn.enableValidationLayers = true →
        info.enabledLayerNames = validationLayers) ∧
      (goodWorld.createDeviceOk = true →
        (createLogicalDevice cfgOn goodWorld devGfx).1.countP isGetDeviceQueue = 1 ∧
        Event.getDeviceQueueCall 0 0 ∈
          (createLogicalDevice cfgOn goodWorld devGfx).1 ∧
        (createLogicalDevice cfgOn goodWorld devGfx).2 = .ok
          ({ queueCreateInfos :=
               [{ queueFamilyIndex := 0, queueCount := 1, queuePriorities := [1] }]
             pEnabledFeatures := {}
             enabledExtensionNames := []
             enabledLayerNames :=
               if cfgOn.enableValidationLayers then validationLayers else [] },
           0, 0)) :=
  device_descriptor_single_queue cfgOn goodWorld devGfx 0 (by decide)
